import Mathlib

/-!
Shallow embedding of `src/config.py` (GeospatialResearch/DT-SmartIdea):
a process-wide environment-variable loader.  The process environment is
modelled as a partial map from variable names to string values; Python
exceptions are modelled by `Except` with an explicit error datatype.
-/

/-- A process environment: `none` means the variable is not set, `some ""`
means it is set to the empty string. -/
abbrev Env := String → Option String

/-- Build an environment from an association list (first binding wins). -/
def envOf (l : List (String × String)) : Env := fun k => List.lookup k l

/-- Python exception kinds raised (or raisable) by `config.py`. -/
inductive ConfigError where
  | keyError (msg : String)
  | valueError (msg : String)
  | typeError (msg : String)
  | attributeError (msg : String)
  deriving Repr, DecidableEq

instance {e a : Type} [DecidableEq e] [DecidableEq a] : DecidableEq (Except e a)
  | Except.ok x, Except.ok y =>
    if h : x = y then isTrue (by rw [h])
    else isFalse (by intro hc; injection hc; exact h (by assumption))
  | Except.ok _, Except.error _ => isFalse (by intro hc; exact Except.noConfusion hc)
  | Except.error _, Except.ok _ => isFalse (by intro hc; exact Except.noConfusion hc)
  | Except.error x, Except.error y =>
    if h : x = y then isTrue (by rw [h])
    else isFalse (by intro hc; injection hc; exact h (by assumption))

/-- Python `str.lower()`.  On the ASCII strings relevant to `config.py` this
agrees with Python; written as a list map so it evaluates by `decide`. -/
def str_lower (s : String) : String := String.mk (s.data.map Char.toLower)

/-- The truth-literal set of `cast_str_to_bool` (config.py line 118). -/
def truth_values : List String := ["true", "t", "1"]

/-- The false-literal set of `cast_str_to_bool` (config.py line 119). -/
def false_values : List String := ["false", "f", "0"]

/-- Embeds `cast_str_to_bool` (config.py lines 97-124): lowercase the string,
test membership in the truth / false literal sets, otherwise raise
`ValueError` (modelled as `Except.error` carrying the message). -/
def cast_str_to_bool (string : String) : Except String Bool :=
  if str_lower string ∈ truth_values then
    Except.ok true
  else if str_lower string ∈ false_values then
    Except.ok false
  else
    Except.error ("String " ++ string ++ " being casted to bool but is not in " ++
      toString truth_values ++ " or " ++ toString false_values)

/-- Embeds `_get_env_variable` (config.py lines 29-61).  `env` stands for
`os.getenv`.  Python's `env_var in (None, "")` is the disjunction below; the
declared return type is `str` but the function can in fact return `None`
(when `allow_empty` is true, no default applies and the variable is unset),
so the result carries `Option String`. -/
def _get_env_variable (env : Env) (var_name : String) (default : Option String)
    (allow_empty : Bool) : Except ConfigError (Option String) :=
  let env_var := env var_name
  let env_var :=
    if default ≠ none ∧ (env_var = none ∨ env_var = some "") then default else env_var
  if allow_empty = false ∧ (env_var = none ∨ env_var = some "") then
    Except.error (ConfigError.keyError
      ("Environment variable " ++ var_name ++ " not set, and allow_empty is False"))
  else
    Except.ok env_var

/-- Python `str` applied to an `Optional[bool]` default, as done by
`_get_bool_env_variable` (config.py line 89). -/
def pyStr : Option Bool → String
  | none => "None"
  | some true => "True"
  | some false => "False"

/-- Embeds `_get_bool_env_variable` (config.py lines 64-94): resolve the
variable as a string with the stringified default, then cast with
`cast_str_to_bool`, re-raising a cast failure as a `ValueError` naming the
variable and the raw value.  The `Except.ok none` branch is unreachable
(the stringified default is never empty so `_get_env_variable` never
returns `None` here); in Python it would crash calling `None.lower()`. -/
def _get_bool_env_variable (env : Env) (var_name : String) (default : Option Bool) :
    Except ConfigError Bool :=
  match _get_env_variable env var_name (some (pyStr default)) false with
  | Except.error e => Except.error e
  | Except.ok none =>
      Except.error (ConfigError.attributeError "NoneType object has no attribute lower")
  | Except.ok (some env_variable) =>
      match cast_str_to_bool env_variable with
      | Except.ok b => Except.ok b
      | Except.error _ =>
          Except.error (ConfigError.valueError
            ("Environment variable " ++ var_name ++ "=" ++ env_variable ++
              " cannot be cast to bool due to ValueError."))

/-- A `pathlib.Path` value: config.py only constructs paths from strings and
performs no filesystem access, so a path is just its string. -/
structure PyPath where
  path : String
  deriving Repr, DecidableEq

/-- Python `pathlib.Path(x)` applied to the result of `_get_env_variable`
(config.py lines 138-141).  On a string it wraps without any filesystem
check; on `None` Python would raise a `TypeError` (unreachable there since
those calls use `allow_empty = False`). -/
def pathlib_Path : Option String → Except ConfigError PyPath
  | some s => Except.ok ⟨s⟩
  | none => Except.error (ConfigError.typeError
      "argument should be a str or an os.PathLike object, not NoneType")

/-- The resolved constants of class `EnvVariable` (config.py lines 127-162),
in source order.  String-typed attributes carry `Option String` because
`_get_env_variable` can return `None` when `allow_empty` is true. -/
structure EnvVariable where
  STATSNZ_API_KEY : Option String
  LINZ_API_KEY : Option String
  MFE_API_KEY : Option String
  NIWA_API_KEY : Option String
  DEBUG_TRACEBACK : Bool
  TEST_DATABASE_INTEGRATION : Bool
  DATA_DIR : PyPath
  DATA_DIR_MODEL_OUTPUT : PyPath
  DATA_DIR_GEOSERVER : PyPath
  FLOOD_MODEL_DIR : PyPath
  POSTGRES_HOST : Option String
  POSTGRES_PORT : Option String
  POSTGRES_DB : Option String
  POSTGRES_USER : Option String
  POSTGRES_PASSWORD : Option String
  MESSAGE_BROKER_HOST : Option String
  GEOSERVER_HOST : Option String
  GEOSERVER_PORT : Option String
  GEOSERVER_INTERNAL_HOST : Option String
  GEOSERVER_INTERNAL_PORT : Option String
  GEOSERVER_ADMIN_NAME : Option String
  GEOSERVER_ADMIN_PASSWORD : Option String
  _LIDAR_DIR : Option String
  _DEM_DIR : Option String
  _LAND_FILE : Option String
  _INSTRUCTIONS_FILE : Option String
  deriving Repr, DecidableEq

/-- Embeds the class body of `EnvVariable` (config.py lines 130-162): each
attribute is resolved eagerly in source order, and the first exception
aborts the whole initialization (fail-fast startup).  The values bound to
`geoserver_host` / `geoserver_port` are reused as the defaults of the
internal host / port (lines 153-154), exactly as in the source. -/
def EnvVariable.resolve (env : Env) : Except ConfigError EnvVariable := do
  let statsnz_api_key ← _get_env_variable env "STATSNZ_API_KEY" none false
  let linz_api_key ← _get_env_variable env "LINZ_API_KEY" none false
  let mfe_api_key ← _get_env_variable env "MFE_API_KEY" none false
  let niwa_api_key ← _get_env_variable env "NIWA_API_KEY" none false
  let debug_traceback ← _get_bool_env_variable env "DEBUG_TRACEBACK" (some false)
  let test_database_integration ← _get_bool_env_variable env "TEST_DATABASE_INTEGRATION" (some true)
  let data_dir_str ← _get_env_variable env "DATA_DIR" none false
  let data_dir ← pathlib_Path data_dir_str
  let data_dir_model_output_str ← _get_env_variable env "DATA_DIR_MODEL_OUTPUT" none false
  let data_dir_model_output ← pathlib_Path data_dir_model_output_str
  let data_dir_geoserver_str ← _get_env_variable env "DATA_DIR_GEOSERVER" none false
  let data_dir_geoserver ← pathlib_Path data_dir_geoserver_str
  let flood_model_dir_str ← _get_env_variable env "FLOOD_MODEL_DIR" none false
  let flood_model_dir ← pathlib_Path flood_model_dir_str
  let postgres_host ← _get_env_variable env "POSTGRES_HOST" (some "localhost") false
  let postgres_port ← _get_env_variable env "POSTGRES_PORT" (some "5431") false
  let postgres_db ← _get_env_variable env "POSTGRES_DB" (some "db") false
  let postgres_user ← _get_env_variable env "POSTGRES_USER" (some "postgres") false
  let postgres_password ← _get_env_variable env "POSTGRES_PASSWORD" none false
  let message_broker_host ← _get_env_variable env "MESSAGE_BROKER_HOST" (some "localhost") false
  let geoserver_host ← _get_env_variable env "GEOSERVER_HOST" (some "http://localhost") false
  let geoserver_port ← _get_env_variable env "GEOSERVER_PORT" (some "8088") false
  let geoserver_internal_host ← _get_env_variable env "GEOSERVER_INTERNAL_HOST" geoserver_host false
  let geoserver_internal_port ← _get_env_variable env "GEOSERVER_INTERNAL_PORT" geoserver_port false
  let geoserver_admin_name ← _get_env_variable env "GEOSERVER_ADMIN_NAME" (some "admin") false
  let geoserver_admin_password ← _get_env_variable env "GEOSERVER_ADMIN_PASSWORD" (some "geoserver") false
  let lidar_dir ← _get_env_variable env "LIDAR_DIR" none false
  let dem_dir ← _get_env_variable env "DEM_DIR" none false
  let land_file ← _get_env_variable env "LAND_FILE" none true
  let instructions_file ← _get_env_variable env "INSTRUCTIONS_FILE" none false
  pure
    { STATSNZ_API_KEY := statsnz_api_key
      LINZ_API_KEY := linz_api_key
      MFE_API_KEY := mfe_api_key
      NIWA_API_KEY := niwa_api_key
      DEBUG_TRACEBACK := debug_traceback
      TEST_DATABASE_INTEGRATION := test_database_integration
      DATA_DIR := data_dir
      DATA_DIR_MODEL_OUTPUT := data_dir_model_output
      DATA_DIR_GEOSERVER := data_dir_geoserver
      FLOOD_MODEL_DIR := flood_model_dir
      POSTGRES_HOST := postgres_host
      POSTGRES_PORT := postgres_port
      POSTGRES_DB := postgres_db
      POSTGRES_USER := postgres_user
      POSTGRES_PASSWORD := postgres_password
      MESSAGE_BROKER_HOST := message_broker_host
      GEOSERVER_HOST := geoserver_host
      GEOSERVER_PORT := geoserver_port
      GEOSERVER_INTERNAL_HOST := geoserver_internal_host
      GEOSERVER_INTERNAL_PORT := geoserver_internal_port
      GEOSERVER_ADMIN_NAME := geoserver_admin_name
      GEOSERVER_ADMIN_PASSWORD := geoserver_admin_password
      _LIDAR_DIR := lidar_dir
      _DEM_DIR := dem_dir
      _LAND_FILE := land_file
      _INSTRUCTIONS_FILE := instructions_file }

/-- Modelled from the spec: `load_dotenv` comes from the third-party
`python-dotenv` package, whose code is not part of this repository; the
spec states that environment definition files are read "into the process
environment ... without overriding variables already set directly in the
process environment (file values act as fallback defaults, not overrides)".
A missing file is modelled by the empty list. -/
def load_dotenv (file : List (String × String)) (env : Env) : Env :=
  fun k =>
    match env k with
    | some v => some v
    | none => List.lookup k file

/-- The process environment after the two `load_dotenv` calls at import time
(config.py lines 25-26): first the default env file, then `api_keys.env`,
each without overriding already-set variables. -/
def startupEnv (procEnv : Env) (defaultFile apiKeysFile : List (String × String)) : Env :=
  load_dotenv apiKeysFile (load_dotenv defaultFile procEnv)

/-- Module import: load the env files into the process environment, then
resolve every `EnvVariable` constant. -/
def startup (procEnv : Env) (defaultFile apiKeysFile : List (String × String)) :
    Except ConfigError EnvVariable :=
  EnvVariable.resolve (startupEnv procEnv defaultFile apiKeysFile)

/-! Test environments used by the witnesses: `baseEnvList` sets every
variable that has no default, and nothing else. -/

def baseEnvList : List (String × String) :=
  [("STATSNZ_API_KEY", "statsnz-key"), ("LINZ_API_KEY", "linz-key"),
   ("MFE_API_KEY", "mfe-key"), ("NIWA_API_KEY", "niwa-key"),
   ("DATA_DIR", "/data"), ("DATA_DIR_MODEL_OUTPUT", "/data/out"),
   ("DATA_DIR_GEOSERVER", "/data/geo"), ("FLOOD_MODEL_DIR", "/flood"),
   ("POSTGRES_PASSWORD", "pgpass"), ("LIDAR_DIR", "/lidar"),
   ("DEM_DIR", "/dem"), ("INSTRUCTIONS_FILE", "/instructions.json")]

def env1 : Env := envOf baseEnvList

def env2 : Env := envOf (("DEBUG_TRACEBACK", "1") :: baseEnvList)

def cfg1 : EnvVariable :=
  { STATSNZ_API_KEY := some "statsnz-key"
    LINZ_API_KEY := some "linz-key"
    MFE_API_KEY := some "mfe-key"
    NIWA_API_KEY := some "niwa-key"
    DEBUG_TRACEBACK := false
    TEST_DATABASE_INTEGRATION := true
    DATA_DIR := ⟨"/data"⟩
    DATA_DIR_MODEL_OUTPUT := ⟨"/data/out"⟩
    DATA_DIR_GEOSERVER := ⟨"/data/geo"⟩
    FLOOD_MODEL_DIR := ⟨"/flood"⟩
    POSTGRES_HOST := some "localhost"
    POSTGRES_PORT := some "5431"
    POSTGRES_DB := some "db"
    POSTGRES_USER := some "postgres"
    POSTGRES_PASSWORD := some "pgpass"
    MESSAGE_BROKER_HOST := some "localhost"
    GEOSERVER_HOST := some "http://localhost"
    GEOSERVER_PORT := some "8088"
    GEOSERVER_INTERNAL_HOST := some "http://localhost"
    GEOSERVER_INTERNAL_PORT := some "8088"
    GEOSERVER_ADMIN_NAME := some "admin"
    GEOSERVER_ADMIN_PASSWORD := some "geoserver"
    _LIDAR_DIR := some "/lidar"
    _DEM_DIR := some "/dem"
    _LAND_FILE := none
    _INSTRUCTIONS_FILE := some "/instructions.json" }

def cfg2 : EnvVariable := { cfg1 with DEBUG_TRACEBACK := true }

example : EnvVariable.resolve env1 = Except.ok cfg1 := by decide
example : EnvVariable.resolve env2 = Except.ok cfg2 := by decide

/-! Helper lemmas characterizing the resolution functions. -/

/-- Destructuring an `Except` bind that succeeded. -/
theorem bind_eq_ok {α β : Type} {e : Except ConfigError α} {f : α → Except ConfigError β} {v : β}
    (h : (e >>= f) = Except.ok v) : ∃ y, e = Except.ok y ∧ f y = Except.ok v := by
  cases e with
  | error err => exact absurd h (by intro hc; exact Except.noConfusion hc)
  | ok y => exact ⟨y, rfl, h⟩

/-- A required variable (no default, `allow_empty = false`) that is unset or
empty raises the `KeyError` naming the variable. -/
theorem gev_missing {env : Env} {n : String} (h : env n = none ∨ env n = some "") :
    _get_env_variable env n none false =
      Except.error (ConfigError.keyError
        ("Environment variable " ++ n ++ " not set, and allow_empty is False")) := by
  unfold _get_env_variable
  rcases h with h | h <;> simp [h]

/-- An unset or empty variable with a non-empty default resolves to the
default, for either value of `allow_empty`. -/
theorem gev_default_subst {env : Env} {n d : String} (hd : d ≠ "")
    (h : env n = none ∨ env n = some "") (ae : Bool) :
    _get_env_variable env n (some d) ae = Except.ok (some d) := by
  unfold _get_env_variable
  rcases h with h | h <;> simp [h, hd]

/-- An unset or empty variable with an explicit empty-string default and
`allow_empty = true` resolves to the empty string. -/
theorem gev_empty_default {env : Env} {n : String} (h : env n = none ∨ env n = some "") :
    _get_env_variable env n (some "") true = Except.ok (some "") := by
  unfold _get_env_variable
  rcases h with h | h <;> simp [h]

/-- A variable set to a non-empty string resolves to that string regardless
of the default and of `allow_empty`. -/
theorem gev_present {env : Env} {n v : String} (hv : env n = some v) (hne : v ≠ "")
    (d : Option String) (ae : Bool) :
    _get_env_variable env n d ae = Except.ok (some v) := by
  unfold _get_env_variable
  simp [hv, hne]

/-- An unset or empty variable whose default is the empty string still fails
when `allow_empty = false`: the substituted default is itself empty. -/
theorem gev_empty_default_fail {env : Env} {n : String} (h : env n = none ∨ env n = some "") :
    _get_env_variable env n (some "") false =
      Except.error (ConfigError.keyError
        ("Environment variable " ++ n ++ " not set, and allow_empty is False")) := by
  unfold _get_env_variable
  rcases h with h | h <;> simp [h]

/-- With `allow_empty = false`, any successful resolution is a non-empty
string. -/
theorem gev_ok_nonempty {env : Env} {n : String} {d : Option String} {v : Option String}
    (h : _get_env_variable env n d false = Except.ok v) : ∃ s, v = some s ∧ s ≠ "" := by
  by_cases hemp : env n = none ∨ env n = some ""
  · rcases d with - | t
    · rw [gev_missing hemp] at h
      exact absurd h (by intro hc; exact Except.noConfusion hc)
    · by_cases ht : t = ""
      · subst ht
        rw [gev_empty_default_fail hemp] at h
        exact absurd h (by intro hc; exact Except.noConfusion hc)
      · rw [gev_default_subst ht hemp false] at h
        injection h with h
        exact ⟨t, h.symm, ht⟩
  · push_neg at hemp
    rcases henv : env n with - | s
    · exact absurd henv hemp.1
    · have hsne : s ≠ "" := by
        intro hs
        subst hs
        exact hemp.2 henv
      rw [gev_present henv hsne d false] at h
      injection h with h
      exact ⟨s, h.symm, hsne⟩

/-- With `allow_empty = true`, no default and the variable unset,
`_get_env_variable` returns Python `None`. -/
theorem gev_none_allow_empty {env : Env} {n : String} (h : env n = none) :
    _get_env_variable env n none true = Except.ok none := by
  unfold _get_env_variable
  simp [h]

/-- Python `str` of an `Optional[bool]` is never the empty string. -/
theorem pyStr_ne_empty (d : Option Bool) : pyStr d ≠ "" := by
  rcases d with - | b
  · decide
  · cases b <;> decide

/-- Boolean resolution of a variable set to a non-empty string: the raw value
is cast, and a cast failure becomes a `ValueError` naming variable and raw
value. -/
theorem gbev_present {env : Env} {n v : String} (hv : env n = some v) (hne : v ≠ "")
    (d : Option Bool) :
    _get_bool_env_variable env n d =
      match cast_str_to_bool v with
      | Except.ok b => Except.ok b
      | Except.error _ => Except.error (ConfigError.valueError
          ("Environment variable " ++ n ++ "=" ++ v ++
            " cannot be cast to bool due to ValueError.")) := by
  unfold _get_bool_env_variable
  rw [gev_present hv hne (some (pyStr d)) false]

/-- Boolean resolution of an unset or empty variable: the stringified default
is substituted and then cast. -/
theorem gbev_default {env : Env} {n : String} (h : env n = none ∨ env n = some "")
    (d : Option Bool) :
    _get_bool_env_variable env n d =
      match cast_str_to_bool (pyStr d) with
      | Except.ok b => Except.ok b
      | Except.error _ => Except.error (ConfigError.valueError
          ("Environment variable " ++ n ++ "=" ++ pyStr d ++
            " cannot be cast to bool due to ValueError.")) := by
  unfold _get_bool_env_variable
  rw [gev_default_subst (pyStr_ne_empty d) h false]

/-- Boolean resolution never raises the missing-variable `KeyError`. -/
theorem gbev_no_keyError (env : Env) (n : String) (d : Option Bool) (m : String) :
    _get_bool_env_variable env n d ≠ Except.error (ConfigError.keyError m) := by
  by_cases hemp : env n = none ∨ env n = some ""
  · rw [gbev_default hemp d]
    rcases hc : cast_str_to_bool (pyStr d) with e | b <;> simp [hc]
  · push_neg at hemp
    rcases henv : env n with - | s
    · exact absurd henv hemp.1
    · have hsne : s ≠ "" := fun hs => hemp.2 (hs ▸ henv)
      rw [gbev_present henv hsne d]
      rcases hc : cast_str_to_bool s with e | b <;> simp [hc]

/-- Projects the class-body resolution: when `EnvVariable.resolve` succeeds,
each constant needed by the theorems below equals the result of its own
resolution call, with the resolved `GEOSERVER_HOST` / `GEOSERVER_PORT`
values appearing as the defaults of the internal variants. -/
theorem resolve_ok_parts {env : Env} {cfg : EnvVariable}
    (h : EnvVariable.resolve env = Except.ok cfg) :
    _get_env_variable env "STATSNZ_API_KEY" none false = Except.ok cfg.STATSNZ_API_KEY ∧
    _get_bool_env_variable env "DEBUG_TRACEBACK" (some false) = Except.ok cfg.DEBUG_TRACEBACK ∧
    (∃ s, _get_env_variable env "DATA_DIR" none false = Except.ok s ∧
      pathlib_Path s = Except.ok cfg.DATA_DIR) ∧
    (∃ s, _get_env_variable env "DATA_DIR_MODEL_OUTPUT" none false = Except.ok s ∧
      pathlib_Path s = Except.ok cfg.DATA_DIR_MODEL_OUTPUT) ∧
    (∃ s, _get_env_variable env "DATA_DIR_GEOSERVER" none false = Except.ok s ∧
      pathlib_Path s = Except.ok cfg.DATA_DIR_GEOSERVER) ∧
    (∃ s, _get_env_variable env "FLOOD_MODEL_DIR" none false = Except.ok s ∧
      pathlib_Path s = Except.ok cfg.FLOOD_MODEL_DIR) ∧
    _get_env_variable env "POSTGRES_PORT" (some "5431") false = Except.ok cfg.POSTGRES_PORT ∧
    _get_env_variable env "GEOSERVER_HOST" (some "http://localhost") false =
      Except.ok cfg.GEOSERVER_HOST ∧
    _get_env_variable env "GEOSERVER_PORT" (some "8088") false = Except.ok cfg.GEOSERVER_PORT ∧
    _get_env_variable env "GEOSERVER_INTERNAL_HOST" cfg.GEOSERVER_HOST false =
      Except.ok cfg.GEOSERVER_INTERNAL_HOST ∧
    _get_env_variable env "GEOSERVER_INTERNAL_PORT" cfg.GEOSERVER_PORT false =
      Except.ok cfg.GEOSERVER_INTERNAL_PORT ∧
    _get_env_variable env "LAND_FILE" none true = Except.ok cfg._LAND_FILE := by
  unfold EnvVariable.resolve at h
  obtain ⟨v01, h01, h⟩ := bind_eq_ok h
  obtain ⟨v02, h02, h⟩ := bind_eq_ok h
  obtain ⟨v03, h03, h⟩ := bind_eq_ok h
  obtain ⟨v04, h04, h⟩ := bind_eq_ok h
  obtain ⟨v05, h05, h⟩ := bind_eq_ok h
  obtain ⟨v06, h06, h⟩ := bind_eq_ok h
  obtain ⟨v07, h07, h⟩ := bind_eq_ok h
  obtain ⟨v08, h08, h⟩ := bind_eq_ok h
  obtain ⟨v09, h09, h⟩ := bind_eq_ok h
  obtain ⟨v10, h10, h⟩ := bind_eq_ok h
  obtain ⟨v11, h11, h⟩ := bind_eq_ok h
  obtain ⟨v12, h12, h⟩ := bind_eq_ok h
  obtain ⟨v13, h13, h⟩ := bind_eq_ok h
  obtain ⟨v14, h14, h⟩ := bind_eq_ok h
  obtain ⟨v15, h15, h⟩ := bind_eq_ok h
  obtain ⟨v16, h16, h⟩ := bind_eq_ok h
  obtain ⟨v17, h17, h⟩ := bind_eq_ok h
  obtain ⟨v18, h18, h⟩ := bind_eq_ok h
  obtain ⟨v19, h19, h⟩ := bind_eq_ok h
  obtain ⟨v20, h20, h⟩ := bind_eq_ok h
  obtain ⟨v21, h21, h⟩ := bind_eq_ok h
  obtain ⟨v22, h22, h⟩ := bind_eq_ok h
  obtain ⟨v23, h23, h⟩ := bind_eq_ok h
  obtain ⟨v24, h24, h⟩ := bind_eq_ok h
  obtain ⟨v25, h25, h⟩ := bind_eq_ok h
  obtain ⟨v26, h26, h⟩ := bind_eq_ok h
  obtain ⟨v27, h27, h⟩ := bind_eq_ok h
  obtain ⟨v28, h28, h⟩ := bind_eq_ok h
  obtain ⟨v29, h29, h⟩ := bind_eq_ok h
  obtain ⟨v30, h30, h⟩ := bind_eq_ok h
  injection h with h
  subst h
  exact ⟨h01, h05, ⟨v07, h07, h08⟩, ⟨v09, h09, h10⟩, ⟨v11, h11, h12⟩, ⟨v13, h13, h14⟩,
    h16, h21, h22, h23, h24, h29⟩

/-- Bridge from a successful path resolution in the class body to the claim
shape: the path constant wraps a non-empty resolved string. -/
theorem path_part {env : Env} {n : String} {p : PyPath}
    (hex : ∃ s, _get_env_variable env n none false = Except.ok s ∧
      pathlib_Path s = Except.ok p) :
    ∃ s, s ≠ "" ∧ _get_env_variable env n none false = Except.ok (some s) ∧ p = PyPath.mk s := by
  obtain ⟨so, hso, hp⟩ := hex
  obtain ⟨s, hs, hsne⟩ := gev_ok_nonempty hso
  subst hs
  have hp2 : Except.ok (PyPath.mk s) = Except.ok p := hp
  injection hp2 with hp2
  exact ⟨s, hsne, hso, hp2.symm⟩

/-! The claims. -/

/-- C1: for every string `s`, `cast_str_to_bool` returns true exactly when
the lowercase of `s` is one of "true", "t", "1", returns false exactly when
the lowercase of `s` is one of "false", "f", "0", and raises a `ValueError`
for every other string; no other string is silently mapped to a boolean. -/
theorem C1_cast_str_to_bool_exact (s : String) :
    (cast_str_to_bool s = Except.ok true ↔ str_lower s ∈ ["true", "t", "1"]) ∧
    (cast_str_to_bool s = Except.ok false ↔ str_lower s ∈ ["false", "f", "0"]) ∧
    (str_lower s ∉ ["true", "t", "1"] → str_lower s ∉ ["false", "f", "0"] →
      ∃ msg, cast_str_to_bool s = Except.error msg) := by
  by_cases h1 : str_lower s ∈ ["true", "t", "1"]
  · have h2 : str_lower s ∉ ["false", "f", "0"] := by
      intro h2
      simp only [List.mem_cons, List.mem_singleton, List.not_mem_nil, or_false] at h1 h2
      rcases h1 with h1 | h1 | h1 <;> rw [h1] at h2 <;> simp at h2
    unfold cast_str_to_bool truth_values false_values
    simp [h1, h2]
  · by_cases h2 : str_lower s ∈ ["false", "f", "0"]
    · unfold cast_str_to_bool truth_values false_values
      simp [h1, h2]
    · unfold cast_str_to_bool truth_values false_values
      simp [h1, h2]

/-- Witness for C1: a true literal, a false literal and a rejected string. -/
theorem C1_witness :
    cast_str_to_bool "TRUE" = Except.ok true ∧
    cast_str_to_bool "F" = Except.ok false ∧
    ∃ msg, cast_str_to_bool "yes" = Except.error msg :=
  ⟨(C1_cast_str_to_bool_exact "TRUE").1.mpr (by decide),
   (C1_cast_str_to_bool_exact "F").2.1.mpr (by decide),
   (C1_cast_str_to_bool_exact "yes").2.2 (by decide) (by decide)⟩

/-- C2: a variable that is absent or empty, with no default and
`allow_empty = false`, raises an error whose message names that variable;
in particular with `STATSNZ_API_KEY` unset the whole `EnvVariable` startup
resolution fails with the error naming `STATSNZ_API_KEY`. -/
theorem C2_missing_required :
    (∀ (env : Env) (n : String), env n = none ∨ env n = some "" →
      ∃ pre post, _get_env_variable env n none false =
        Except.error (ConfigError.keyError (pre ++ n ++ post))) ∧
    (∀ env : Env, env "STATSNZ_API_KEY" = none →
      EnvVariable.resolve env = Except.error (ConfigError.keyError
        "Environment variable STATSNZ_API_KEY not set, and allow_empty is False")) := by
  constructor
  · intro env n h
    exact ⟨"Environment variable ", " not set, and allow_empty is False", gev_missing h⟩
  · intro env h
    unfold EnvVariable.resolve
    rw [gev_missing (Or.inl h)]
    rfl

/-- Witness for C2: the empty environment fails on `STATSNZ_API_KEY`. -/
theorem C2_witness :
    EnvVariable.resolve (envOf []) = Except.error (ConfigError.keyError
      "Environment variable STATSNZ_API_KEY not set, and allow_empty is False") :=
  C2_missing_required.2 (envOf []) rfl

/-- C3: an absent or empty variable with a default resolves to the default
unchanged (a non-empty default for either `allow_empty`; an explicit empty
default is substituted and returned when `allow_empty` is true), and a
non-empty environment value is returned regardless of the default. -/
theorem C3_default_substitution :
    (∀ (env : Env) (n d : String) (ae : Bool), d ≠ "" → env n = none ∨ env n = some "" →
      _get_env_variable env n (some d) ae = Except.ok (some d)) ∧
    (∀ (env : Env) (n : String), env n = none ∨ env n = some "" →
      _get_env_variable env n (some "") true = Except.ok (some "")) ∧
    (∀ (env : Env) (n v : String) (d : Option String) (ae : Bool), env n = some v → v ≠ "" →
      _get_env_variable env n d ae = Except.ok (some v)) :=
  ⟨fun _ _ _ ae hd h => gev_default_subst hd h ae,
   fun _ _ h => gev_empty_default h,
   fun _ _ _ d ae hv hne => gev_present hv hne d ae⟩

/-- Witness for C3: default substituted when unset, empty default preserved,
environment value beats the default. -/
theorem C3_witness :
    _get_env_variable (envOf []) "POSTGRES_PORT" (some "5431") false = Except.ok (some "5431") ∧
    _get_env_variable (envOf []) "OPT_VAR" (some "") true = Except.ok (some "") ∧
    _get_env_variable (envOf [("OPT_VAR", "explicit")]) "OPT_VAR" (some "fallback") false =
      Except.ok (some "explicit") :=
  ⟨C3_default_substitution.1 (envOf []) "POSTGRES_PORT" "5431" false (by decide) (Or.inl rfl),
   C3_default_substitution.2.1 (envOf []) "OPT_VAR" (Or.inl rfl),
   C3_default_substitution.2.2 (envOf [("OPT_VAR", "explicit")]) "OPT_VAR" "explicit"
     (some "fallback") false rfl (by decide)⟩

/-- C4: boolean resolution first resolves the variable as a string with the
stringified boolean default, then casts with the literal sets; a cast
failure is a `ValueError` reporting the variable name and the raw string
value, and a missing-variable `KeyError` never escapes this function. -/
theorem C4_bool_coercion_error :
    (∀ (env : Env) (n : String) (d : Option Bool) (v : String), env n = some v → v ≠ "" →
      _get_bool_env_variable env n d =
        match cast_str_to_bool v with
        | Except.ok b => Except.ok b
        | Except.error _ => Except.error (ConfigError.valueError
            ("Environment variable " ++ n ++ "=" ++ v ++
              " cannot be cast to bool due to ValueError."))) ∧
    (∀ (env : Env) (n : String) (d : Option Bool), env n = none ∨ env n = some "" →
      _get_bool_env_variable env n d =
        match cast_str_to_bool (pyStr d) with
        | Except.ok b => Except.ok b
        | Except.error _ => Except.error (ConfigError.valueError
            ("Environment variable " ++ n ++ "=" ++ pyStr d ++
              " cannot be cast to bool due to ValueError."))) ∧
    (∀ (env : Env) (n : String) (d : Option Bool) (m : String),
      _get_bool_env_variable env n d ≠ Except.error (ConfigError.keyError m)) :=
  ⟨fun _ _ d _ hv hne => gbev_present hv hne d,
   fun _ _ d h => gbev_default h d,
   fun env n d m => gbev_no_keyError env n d m⟩

/-- Witness for C4: an unrecognized value yields the `ValueError` naming the
variable and the raw value. -/
theorem C4_witness :
    _get_bool_env_variable (envOf [("SOME_FLAG", "maybe")]) "SOME_FLAG" (some false) =
      Except.error (ConfigError.valueError
        "Environment variable SOME_FLAG=maybe cannot be cast to bool due to ValueError.") := by
  rw [C4_bool_coercion_error.1 (envOf [("SOME_FLAG", "maybe")]) "SOME_FLAG" (some false)
    "maybe" rfl (by decide)]
  rfl

/-- C5: with no explicit environment value, `GEOSERVER_HOST` and
`GEOSERVER_PORT` resolve to their literal defaults, and the internal
host / port resolve to the already-resolved external host / port values. -/
theorem C5_geoserver_internal_fallback :
    ∀ (env : Env) (cfg : EnvVariable), EnvVariable.resolve env = Except.ok cfg →
      (env "GEOSERVER_HOST" = none → cfg.GEOSERVER_HOST = some "http://localhost") ∧
      (env "GEOSERVER_PORT" = none → cfg.GEOSERVER_PORT = some "8088") ∧
      (env "GEOSERVER_INTERNAL_HOST" = none →
        cfg.GEOSERVER_INTERNAL_HOST = cfg.GEOSERVER_HOST) ∧
      (env "GEOSERVER_INTERNAL_PORT" = none →
        cfg.GEOSERVER_INTERNAL_PORT = cfg.GEOSERVER_PORT) := by
  intro env cfg h
  obtain ⟨-, -, -, -, -, -, -, hH, hP, hIH, hIP, -⟩ := resolve_ok_parts h
  refine ⟨?_, ?_, ?_, ?_⟩
  · intro hu
    rw [gev_default_subst (by decide) (Or.inl hu) false] at hH
    injection hH with hH
    exact hH.symm
  · intro hu
    rw [gev_default_subst (by decide) (Or.inl hu) false] at hP
    injection hP with hP
    exact hP.symm
  · intro hu
    obtain ⟨s, hs, hsne⟩ := gev_ok_nonempty hH
    rw [hs] at hIH
    rw [gev_default_subst hsne (Or.inl hu) false] at hIH
    injection hIH with hIH
    rw [hs]
    exact hIH.symm
  · intro hu
    obtain ⟨s, hs, hsne⟩ := gev_ok_nonempty hP
    rw [hs] at hIP
    rw [gev_default_subst hsne (Or.inl hu) false] at hIP
    injection hIP with hIP
    rw [hs]
    exact hIP.symm

/-- Witness for C5: with none of the four tile-server variables set, the
internal values equal the external defaults. -/
theorem C5_witness :
    cfg1.GEOSERVER_HOST = some "http://localhost" ∧ cfg1.GEOSERVER_PORT = some "8088" ∧
    cfg1.GEOSERVER_INTERNAL_HOST = cfg1.GEOSERVER_HOST ∧
    cfg1.GEOSERVER_INTERNAL_PORT = cfg1.GEOSERVER_PORT := by
  have h := C5_geoserver_internal_fallback env1 cfg1 (by decide)
  exact ⟨h.1 rfl, h.2.1 rfl, h.2.2.1 rfl, h.2.2.2 rfl⟩

/-- C6: the environment files are loaded into the process environment before
any variable is resolved, and a file value never overrides a variable
already set in the process environment. -/
theorem C6_dotenv_no_override :
    (∀ (procEnv : Env) (f1 f2 : List (String × String)) (k v : String),
      procEnv k = some v → startupEnv procEnv f1 f2 k = some v) ∧
    (∀ (procEnv : Env) (f1 f2 : List (String × String)),
      startup procEnv f1 f2 = EnvVariable.resolve (startupEnv procEnv f1 f2)) := by
  constructor
  · intro procEnv f1 f2 k v h
    unfold startupEnv load_dotenv
    simp [h]
  · intro procEnv f1 f2
    rfl

/-- Witness for C6: a key set both in the process environment and in an env
file keeps its process-level value. -/
theorem C6_witness :
    startupEnv (envOf [("SHARED_KEY", "process-value")])
      [("SHARED_KEY", "file-value")] [] "SHARED_KEY" = some "process-value" :=
  C6_dotenv_no_override.1 (envOf [("SHARED_KEY", "process-value")])
    [("SHARED_KEY", "file-value")] [] "SHARED_KEY" "process-value" rfl

/-- C7: `POSTGRES_PORT` unset resolves to "5431"; `DEBUG_TRACEBACK` set to
"1" resolves to true, and unset it resolves to its default false. -/
theorem C7_example_constants :
    ∀ (env : Env) (cfg : EnvVariable), EnvVariable.resolve env = Except.ok cfg →
      (env "POSTGRES_PORT" = none → cfg.POSTGRES_PORT = some "5431") ∧
      (env "DEBUG_TRACEBACK" = some "1" → cfg.DEBUG_TRACEBACK = true) ∧
      (env "DEBUG_TRACEBACK" = none → cfg.DEBUG_TRACEBACK = false) := by
  intro env cfg h
  obtain ⟨-, hDT, -, -, -, -, hPP, -, -, -, -, -⟩ := resolve_ok_parts h
  refine ⟨?_, ?_, ?_⟩
  · intro hu
    rw [gev_default_subst (by decide) (Or.inl hu) false] at hPP
    injection hPP with hPP
    exact hPP.symm
  · intro hv
    rw [gbev_present hv (by decide) (some false)] at hDT
    have hb : Except.ok true = Except.ok cfg.DEBUG_TRACEBACK := hDT
    injection hb with hb
    exact hb.symm
  · intro hu
    rw [gbev_default (Or.inl hu) (some false)] at hDT
    have hb : Except.ok false = Except.ok cfg.DEBUG_TRACEBACK := hDT
    injection hb with hb
    exact hb.symm

/-- Witness for C7 on concrete environments with and without
`DEBUG_TRACEBACK`. -/
theorem C7_witness :
    cfg1.POSTGRES_PORT = some "5431" ∧ cfg1.DEBUG_TRACEBACK = false ∧
    cfg2.DEBUG_TRACEBACK = true := by
  have h1 := C7_example_constants env1 cfg1 (by decide)
  have h2 := C7_example_constants env2 cfg2 (by decide)
  exact ⟨h1.1 rfl, h1.2.2 rfl, h2.2.1 rfl⟩

/-- C8: every path constant is a required-string resolution (absence or
emptiness raises the missing-variable error) whose non-empty result is
wrapped as a path value, with no filesystem check: any non-empty string is
accepted as-is. -/
theorem C8_path_constants :
    (∀ (env : Env) (cfg : EnvVariable), EnvVariable.resolve env = Except.ok cfg →
      (∃ s, s ≠ "" ∧ _get_env_variable env "DATA_DIR" none false = Except.ok (some s) ∧
        cfg.DATA_DIR = PyPath.mk s) ∧
      (∃ s, s ≠ "" ∧ _get_env_variable env "DATA_DIR_MODEL_OUTPUT" none false =
        Except.ok (some s) ∧ cfg.DATA_DIR_MODEL_OUTPUT = PyPath.mk s) ∧
      (∃ s, s ≠ "" ∧ _get_env_variable env "DATA_DIR_GEOSERVER" none false =
        Except.ok (some s) ∧ cfg.DATA_DIR_GEOSERVER = PyPath.mk s) ∧
      (∃ s, s ≠ "" ∧ _get_env_variable env "FLOOD_MODEL_DIR" none false =
        Except.ok (some s) ∧ cfg.FLOOD_MODEL_DIR = PyPath.mk s)) ∧
    (∀ (env : Env) (n : String), env n = none ∨ env n = some "" →
      _get_env_variable env n none false = Except.error (ConfigError.keyError
        ("Environment variable " ++ n ++ " not set, and allow_empty is False"))) := by
  constructor
  · intro env cfg h
    obtain ⟨-, -, p1, p2, p3, p4, -⟩ := resolve_ok_parts h
    exact ⟨path_part p1, path_part p2, path_part p3, path_part p4⟩
  · intro env n h
    exact gev_missing h

/-- Witness for C8: `DATA_DIR` wraps the resolved string as a path, and is a
missing-variable error under the empty environment. -/
theorem C8_witness :
    (∃ s, s ≠ "" ∧ _get_env_variable env1 "DATA_DIR" none false = Except.ok (some s) ∧
      cfg1.DATA_DIR = PyPath.mk s) ∧
    _get_env_variable (envOf []) "DATA_DIR" none false = Except.error (ConfigError.keyError
      "Environment variable DATA_DIR not set, and allow_empty is False") :=
  ⟨(C8_path_constants.1 env1 cfg1 (by decide)).1,
   C8_path_constants.2 (envOf []) "DATA_DIR" (Or.inl rfl)⟩

/-- C9: calling `_get_bool_env_variable` with default `None` on an unset or
empty variable does not raise the missing-variable error: the default is
stringified to "None", substituted as the string value, and then fails
boolean coercion with the `ValueError` reporting the raw value "None". -/
theorem C9_none_default_coercion_error :
    ∀ (env : Env) (n : String), env n = none ∨ env n = some "" →
      _get_env_variable env n (some (pyStr none)) false = Except.ok (some "None") ∧
      _get_bool_env_variable env n none = Except.error (ConfigError.valueError
        ("Environment variable " ++ n ++ "=" ++ "None" ++
          " cannot be cast to bool due to ValueError.")) := by
  intro env n h
  constructor
  · exact gev_default_subst (by decide) h false
  · rw [gbev_default h none]
    rfl

/-- Witness for C9 at an unset variable under the empty environment. -/
theorem C9_witness :
    _get_bool_env_variable (envOf []) "TEST_FLAG" none = Except.error (ConfigError.valueError
      "Environment variable TEST_FLAG=None cannot be cast to bool due to ValueError.") :=
  (C9_none_default_coercion_error (envOf []) "TEST_FLAG" (Or.inl rfl)).2

/-- C10: with `allow_empty = true`, no default and the variable unset,
`_get_env_variable` returns Python `None` rather than a string; in
particular `_LAND_FILE` is `None`, not the empty string, when `LAND_FILE`
is unset. -/
theorem C10_allow_empty_unset_is_none :
    (∀ (env : Env) (n : String), env n = none →
      _get_env_variable env n none true = Except.ok none) ∧
    (∀ (env : Env) (cfg : EnvVariable), EnvVariable.resolve env = Except.ok cfg →
      env "LAND_FILE" = none → cfg._LAND_FILE = none ∧ cfg._LAND_FILE ≠ some "") := by
  constructor
  · intro env n h
    exact gev_none_allow_empty h
  · intro env cfg h hu
    obtain ⟨-, -, -, -, -, -, -, -, -, -, -, hLF⟩ := resolve_ok_parts h
    rw [gev_none_allow_empty hu] at hLF
    injection hLF with hLF
    refine ⟨hLF.symm, ?_⟩
    rw [← hLF]
    simp

/-- Witness for C10: unset `LAND_FILE` gives `None` both directly and as the
`_LAND_FILE` constant. -/
theorem C10_witness :
    _get_env_variable (envOf []) "LAND_FILE" none true = Except.ok none ∧
    cfg1._LAND_FILE = none :=
  ⟨C10_allow_empty_unset_is_none.1 (envOf []) "LAND_FILE" rfl,
   (C10_allow_empty_unset_is_none.2 env1 cfg1 (by decide) rfl).1⟩
